import Mathlib

/-
Shallow embedding of the prediction-serving API of this repository.

Embedded source:
  api/ml_api/controller.py              (predict, predict_previous, metrics)
  api/ml_api/persistence/data_access.py (ModelType, PredictionResult,
                                         SECONDARY_VARIABLES_TO_RENAME,
                                         PredictionPersistence)
  api/ml_api/persistence/models.py      (the two prediction tables)
  api/ml_api/config.py                  (SHADOW_MODE_ACTIVE toggle)

The two external model packages (regression_model and
gradient_boosting_model) are out of the repository; the code consumes each
one as a function from an input batch to a mapping holding errors,
predictions and version entries, so they are modelled as parameters of
that shape. Database commits either extend the committed row list or fail;
an injected commit failure models an infrastructure PersistenceError.
-/

namespace MLApi

/-- A JSON scalar appearing in a feature record. vNull also stands for the
pandas NaN fill of a missing cell. -/
inductive Value
  | vStr : String → Value
  | vInt : Int → Value
  | vNull : Value
deriving DecidableEq

/-- One feature record: an ordered field-name-to-value mapping, as parsed
from one JSON object of the posted array. -/
abbrev Record := List (String × Value)

/-- An input batch: the JSON array of records posted to an endpoint. -/
abbrev Batch := List Record

/-- First-match association lookup, the access discipline of the concrete
Python dictionaries modelled here. -/
def lookupKey {α : Type} (k : String) : List (String × α) → Option α
  | [] => none
  | kv :: rest => if k = kv.1 then some kv.2 else lookupKey k rest

/-- Validation detail for one record: field name to violation messages. -/
abbrev FieldErrors := List (String × List String)

/-- Structured validation errors: record index (as a string key) to the
per-field messages. -/
abbrev Errors := List (String × FieldErrors)

/-- Raw result of one external model package predict call. errors = none
models both a missing errors key and an errors key holding Python None,
which data_access.make_save_predictions treats identically (the KeyError
branch leaves the local errors at None). -/
structure ModelOutput where
  errors : Option Errors
  predictions : Option (List Int)
  version : Option String
deriving DecidableEq

/-- An external model package: from input batch to raw result. -/
abbrev ModelFn := Batch → ModelOutput

/-- Python truthiness of the errors value: None and an empty mapping are
falsy, a nonempty mapping is truthy. -/
def errorsTruthy : Option Errors → Bool
  | none => false
  | some [] => false
  | some (_ :: _) => true

/-- data_access.py ModelType enumeration. -/
inductive ModelType
  | LASSO
  | GRADIENT_BOOSTING
deriving DecidableEq

/-- The Python enum member name, used as the model_name metric label. -/
def ModelType.pyName : ModelType → String
  | .LASSO => "LASSO"
  | .GRADIENT_BOOSTING => "GRADIENT_BOOSTING"

/-- data_access.py SECONDARY_VARIABLES_TO_RENAME. -/
def SECONDARY_VARIABLES_TO_RENAME : List (String × String) :=
  [("FirstFlrSF", "1stFlrSF"),
   ("SecondFlrSF", "2ndFlrSF"),
   ("ThreeSsnPortch", "3SsnPorch")]

/-- DataFrame.rename on one column label: renamed when the label is a key
of the rename table, unchanged otherwise. -/
def renameColumn (c : String) : String :=
  match lookupKey c SECONDARY_VARIABLES_TO_RENAME with
  | some c2 => c2
  | none => c

/-- Append a column label unless already present. pandas accumulates the
column index of a DataFrame built from a list of records in order of
first appearance. -/
def insertCol (cs : List String) (c : String) : List String :=
  if c ∈ cs then cs else cs ++ [c]

/-- The field names of a record, in order. -/
def recordKeys (r : Record) : List String := r.map Prod.fst

/-- Column labels contributed by one record, appended to an accumulator of
labels already seen. -/
def recordCols (cs : List String) (r : Record) : List String :=
  (recordKeys r).foldl insertCol cs

/-- Column index of pd.DataFrame(input_data): the union of the record
keys in order of first appearance. -/
def dfColumns (b : Batch) : List String := b.foldl recordCols []

/-- The cell of row r at column c: the stored value, or the NaN fill when
the record has no such field. -/
def rowValue (r : Record) (c : String) : Value :=
  match lookupKey c r with
  | some v => v
  | none => Value.vNull

/-- Python dict assignment: overwrite in place on an existing key, append
otherwise. -/
def setKey (d : Record) (k : String) (v : Value) : Record :=
  match d with
  | [] => [(k, v)]
  | kv :: rest => if kv.1 = k then (k, v) :: rest else kv :: setKey rest k v

/-- Build a Python dict from a key-value sequence: later assignments to
the same key overwrite, key order is first insertion. DataFrame.to_dict
with orient records forms each row dictionary this way. -/
def dictOfPairs (ps : List (String × Value)) : Record :=
  ps.foldl (fun d kv => setKey d kv.1 kv.2) []

/-- The normalization data_access.make_save_predictions applies to every
LASSO batch before prediction and persistence:
pd.DataFrame(input_data).rename(columns=SECONDARY_VARIABLES_TO_RENAME)
followed by to_dict with orient records. -/
def toRenamedRecords (b : Batch) : Batch :=
  let cols := dfColumns b
  b.map (fun r => dictOfPairs (cols.map (fun c => (renameColumn c, rowValue r c))))

/-- The two ORM tables of persistence/models.py. -/
inductive PredTable
  | LassoModelPredictions
  | GradientBoostingModelPredictions
deriving DecidableEq

/-- One committed prediction row, holding the fields the code sets
explicitly; inputs holds the structured argument handed to json.dumps. -/
structure DbRecord where
  table : PredTable
  user_id : String
  model_version : Option String
  inputs : Batch
  outputs : Option (List Int)
deriving DecidableEq

/-- data_access.py PredictionResult named tuple. -/
structure PredictionResult where
  errors : Option Errors
  predictions : Option (List Int)
  model_version : Option String
deriving DecidableEq

/-- Exceptions the embedded code can raise. persistenceError stands for a
database error raised out of db_session.commit. -/
inductive PyError
  | attributeError
  | typeError
  | persistenceError
deriving DecidableEq

/-- PredictionPersistence instance state. The user_id field models the
user_id attribute: none means the attribute was never assigned, so a read
of it raises AttributeError. -/
structure PredictionPersistence where
  user_id : Option String
deriving DecidableEq

/-- Python truthiness of the optional user_id string argument: None and
the empty string are falsy. -/
def pyStrTruthy : Option String → Bool
  | none => false
  | some s => decide (s ≠ "")

/-- PredictionPersistence constructor: the user_id attribute is assigned
the placeholder 007 only when the argument is falsy; on a truthy argument
the assignment branch is skipped and the attribute is never set. -/
def PredictionPersistence.init (user_id : Option String) : PredictionPersistence :=
  if pyStrTruthy user_id then { user_id := none } else { user_id := some "007" }

/-- The environment of the controller: the two external model packages,
the live package version string used as the metric label, the
SHADOW_MODE_ACTIVE toggle read from the configuration, and an injected
commit failure used to model a primary-path persistence fault. -/
structure Env where
  liveModel : ModelFn
  shadowModel : ModelFn
  live_version : String
  shadow_mode_active : Bool
  primaryCommitFails : Bool

/-- data_access.py MODEL_PREDICTION_MAP. -/
def MODEL_PREDICTION_MAP (env : Env) : ModelType → ModelFn
  | ModelType.LASSO => env.liveModel
  | ModelType.GRADIENT_BOOSTING => env.shadowModel

/-- The reassignment at the top of make_save_predictions: a LASSO batch is
replaced by its renamed DataFrame view, any other batch is left as is. -/
def normalizedInput (db_model : ModelType) (input_data : Batch) : Batch :=
  if db_model = ModelType.LASSO then toRenamedRecords input_data else input_data

/-- PredictionPersistence.save_predictions. Reads self.user_id (raising
AttributeError when the attribute is missing), builds one row for the
table selected by db_model, adds it and commits it as one unit.
commitFails injects a database failure at the commit; the code does not
catch it. -/
def PredictionPersistence.save_predictions (self : PredictionPersistence)
    (inputs : Batch) (prediction_result : PredictionResult)
    (db_model : ModelType) (commitFails : Bool) (db : List DbRecord) :
    Except PyError (List DbRecord) :=
  match self.user_id with
  | none => Except.error PyError.attributeError
  | some uid =>
    let prediction_data : DbRecord :=
      { table := if db_model = ModelType.LASSO
                 then PredTable.LassoModelPredictions
                 else PredTable.GradientBoostingModelPredictions,
        user_id := uid,
        model_version := prediction_result.model_version,
        inputs := inputs,
        outputs := prediction_result.predictions }
    if commitFails then Except.error PyError.persistenceError
    else Except.ok (db ++ [prediction_data])

/-- PredictionPersistence.make_save_predictions. The LASSO input batch is
reassigned to its renamed view before prediction, so the later save
receives the renamed batch. Calling tolist on a missing predictions entry
raises AttributeError. When the errors value is truthy the result is
returned before any save. -/
def PredictionPersistence.make_save_predictions (self : PredictionPersistence)
    (env : Env) (db_model : ModelType) (input_data : Batch)
    (commitFails : Bool) (db : List DbRecord) :
    Except PyError (PredictionResult × List DbRecord) :=
  let input_data2 := normalizedInput db_model input_data
  let result := MODEL_PREDICTION_MAP env db_model input_data2
  if errorsTruthy result.errors then
    Except.ok ({ errors := result.errors, predictions := none,
                 model_version := result.version }, db)
  else
    match result.predictions with
    | none => Except.error PyError.attributeError
    | some raw =>
      let prediction_result : PredictionResult :=
        { errors := result.errors, predictions := some raw,
          model_version := result.version }
      match self.save_predictions input_data2 prediction_result db_model
          commitFails db with
      | Except.error e => Except.error e
      | Except.ok db2 => Except.ok (prediction_result, db2)

/-- The application name used as the app_name metric label. -/
def APP_NAME : String := "ml_api"

/-- One labelled metric emission: a histogram observe or a gauge set. -/
structure MetricSample where
  app_name : String
  model_name : String
  model_version : String
  value : Int
deriving DecidableEq

/-- Result of one request to the regression endpoint: the HTTP status and
body fields, the rows committed synchronously, whether the shadow thread
was started, and the metric emissions; all of these are completed before
the response is returned. -/
structure PredictOutcome where
  status : Nat
  predictions : Option (List Int)
  version : Option String
  errors : Option Errors
  db : List DbRecord
  shadowDispatched : Bool
  histObs : List MetricSample
  gaugeSets : List MetricSample
deriving DecidableEq

/-- controller.predict, the primary (regression) endpoint. Step 2a runs
the live model through make_save_predictions; an exception there
propagates, so no response object is produced and the framework answers
with a server error. Step 2b starts the shadow thread whenever the toggle
is active, and it sits before the error check of step 3. Step 4 emits one
histogram observation and one gauge set per prediction value, labelled
with the application name, the LASSO member name and the live version.
Step 5 returns the 200 body. -/
def predict (env : Env) (json_data : Batch) : Except PyError PredictOutcome :=
  match (PredictionPersistence.init none).make_save_predictions env
      ModelType.LASSO json_data env.primaryCommitFails [] with
  | Except.error e => Except.error e
  | Except.ok (result, db) =>
    if errorsTruthy result.errors then
      Except.ok { status := 400, predictions := none, version := none,
                  errors := result.errors, db := db,
                  shadowDispatched := env.shadow_mode_active,
                  histObs := [], gaugeSets := [] }
    else
      match result.predictions with
      | none => Except.error PyError.typeError
      | some ps =>
        Except.ok { status := 200, predictions := some ps,
                    version := result.model_version, errors := result.errors,
                    db := db,
                    shadowDispatched := env.shadow_mode_active,
                    histObs := ps.map (fun p =>
                      { app_name := APP_NAME,
                        model_name := ModelType.LASSO.pyName,
                        model_version := env.live_version, value := p }),
                    gaugeSets := ps.map (fun p =>
                      { app_name := APP_NAME,
                        model_name := ModelType.LASSO.pyName,
                        model_version := env.live_version, value := p }) }

/-- Rows committed by the detached shadow thread, which runs
make_save_predictions for the GRADIENT_BOOSTING model on the original,
unrenamed batch; an exception inside the thread stays in the thread. -/
def shadowThreadDb (env : Env) (json_data : Batch) : List DbRecord :=
  match (PredictionPersistence.init none).make_save_predictions env
      ModelType.GRADIENT_BOOSTING json_data false [] with
  | Except.ok (_, db) => db
  | Except.error _ => []

/-- All rows eventually committed for one request to the regression
endpoint: the synchronous rows plus, when the shadow thread was
dispatched, its asynchronous rows. -/
def eventualDb (env : Env) (json_data : Batch) (o : PredictOutcome) :
    List DbRecord :=
  o.db ++ (if o.shadowDispatched then shadowThreadDb env json_data else [])

/-- Result of one request to the gradient endpoint. -/
structure GradientOutcome where
  status : Nat
  errors : Option Errors
deriving DecidableEq

/-- controller.predict_previous, the gradient endpoint: invokes the
secondary model directly on the unrenamed batch and returns the
validation errors with status 400 when they are truthy. On the success
path the code then calls persistence.save_predictions with keyword
arguments model_version and predictions, but the save_predictions
signature only accepts inputs, prediction_result and db_model, so Python
raises TypeError at that call, before any row is added or committed. -/
def predict_previous (env : Env) (json_data : Batch) :
    Except PyError GradientOutcome :=
  let result := env.shadowModel json_data
  if errorsTruthy result.errors then
    Except.ok { status := 400, errors := result.errors }
  else
    Except.error PyError.typeError

/-- Spec contract of an external model package (Model Adapter, spec
section 4.1): when the underlying validation fails the adapter returns
errors populated, never as an empty mapping. -/
def adapterErrorsPopulated (f : ModelFn) : Prop :=
  ∀ b, (f b).errors ≠ some []

/-- The key order of a DataFrame row dictionary is the first-appearance
dedup of the pair keys. -/
def firstDedup (ks : List String) : List String := ks.foldl insertCol []

/-! Concrete fixtures used by witnesses and counterexamples. -/

/-- A live (regression) package that accepts every batch. -/
def liveOkFn : ModelFn :=
  fun _ => { errors := none, predictions := some [7], version := some "r1" }

/-- A secondary (gradient boosting) package that accepts every batch. -/
def shadowOkFn : ModelFn :=
  fun _ => { errors := none, predictions := some [5], version := some "g1" }

/-- A live package that rejects every batch with a validation error. -/
def liveErrFn : ModelFn :=
  fun _ => { errors := some [("33", [("BldgType", ["Not a valid string."])])],
             predictions := none, version := some "r1" }

def envOk : Env :=
  { liveModel := liveOkFn, shadowModel := shadowOkFn, live_version := "r1",
    shadow_mode_active := true, primaryCommitFails := false }

def envOff : Env :=
  { liveModel := liveOkFn, shadowModel := shadowOkFn, live_version := "r1",
    shadow_mode_active := false, primaryCommitFails := false }

def envFail : Env :=
  { liveModel := liveOkFn, shadowModel := shadowOkFn, live_version := "r1",
    shadow_mode_active := true, primaryCommitFails := true }

def envLiveErr : Env :=
  { liveModel := liveErrFn, shadowModel := shadowOkFn, live_version := "r1",
    shadow_mode_active := true, primaryCommitFails := false }

/-- A batch using a pre-rename (source schema) field name. -/
def bRen : Batch := [[("FirstFlrSF", Value.vInt 10)]]

/-- A batch already in the renamed (target) schema. -/
def bTgt : Batch := [[("1stFlrSF", Value.vInt 3), ("LotArea", Value.vInt 100)]]

/-- A batch that fails the live validation of liveErrFn. -/
def bErr : Batch := [[("BldgType", Value.vInt 1)]]

def prOk : PredictionResult :=
  { errors := none, predictions := some [7], model_version := some "r1" }

def prShadow : PredictionResult :=
  { errors := none, predictions := some [5], model_version := some "g1" }

/-- The row committed for bRen on the primary path. -/
def recRen : DbRecord :=
  { table := PredTable.LassoModelPredictions, user_id := "007",
    model_version := some "r1",
    inputs := [[("1stFlrSF", Value.vInt 10)]], outputs := some [7] }

/-- The row committed for an empty batch on the primary path. -/
def recOk : DbRecord :=
  { table := PredTable.LassoModelPredictions, user_id := "007",
    model_version := some "r1", inputs := [], outputs := some [7] }

/-- The row committed for an empty batch on the secondary path. -/
def recShadow : DbRecord :=
  { table := PredTable.GradientBoostingModelPredictions, user_id := "007",
    model_version := some "g1", inputs := [], outputs := some [5] }

/-- The outcome of predict envOff on the empty batch. -/
def oOff : PredictOutcome :=
  { status := 200, predictions := some [7], version := some "r1",
    errors := none, db := [recOk], shadowDispatched := false,
    histObs := [{ app_name := "ml_api", model_name := "LASSO",
                  model_version := "r1", value := 7 }],
    gaugeSets := [{ app_name := "ml_api", model_name := "LASSO",
                    model_version := "r1", value := 7 }] }

/-- The outcome of predict envOk on the empty batch. -/
def oOn : PredictOutcome := { oOff with shadowDispatched := true }

/-! Helper lemmas about the DataFrame column model. -/

theorem recordKeys_nil : recordKeys [] = [] := rfl

theorem recordKeys_cons (kv : String × Value) (r : Record) :
    recordKeys (kv :: r) = kv.1 :: recordKeys r := rfl

theorem recordKeys_append (r1 r2 : Record) :
    recordKeys (r1 ++ r2) = recordKeys r1 ++ recordKeys r2 :=
  List.map_append Prod.fst r1 r2

theorem recordKeys_setKey (d : Record) (k : String) (v : Value) :
    recordKeys (setKey d k v) = insertCol (recordKeys d) k := by
  induction d with
  | nil => simp [setKey, recordKeys, insertCol]
  | cons kv rest ih =>
    by_cases hk : kv.1 = k
    · subst hk
      simp [setKey, recordKeys, insertCol]
    · rw [show setKey (kv :: rest) k v = kv :: setKey rest k v by
        simp [setKey, hk]]
      rw [recordKeys_cons, recordKeys_cons, ih]
      unfold insertCol
      by_cases hmem : k ∈ recordKeys rest
      · have hmem2 : k ∈ kv.1 :: recordKeys rest := List.mem_cons_of_mem _ hmem
        simp [hmem, hmem2]
      · have hmem2 : ¬ k ∈ kv.1 :: recordKeys rest := by
          simp only [List.mem_cons, not_or]
          exact ⟨fun he => hk he.symm, hmem⟩
        simp [hmem, hmem2]

theorem recordKeys_foldl_setKey (ps : List (String × Value)) (d : Record) :
    recordKeys (ps.foldl (fun d2 kv => setKey d2 kv.1 kv.2) d)
      = (ps.map Prod.fst).foldl insertCol (recordKeys d) := by
  induction ps generalizing d with
  | nil => rfl
  | cons kv ps ih =>
    simp only [List.foldl_cons, List.map_cons]
    rw [ih, recordKeys_setKey]

theorem recordKeys_dictOfPairs (ps : List (String × Value)) :
    recordKeys (dictOfPairs ps) = firstDedup (ps.map Prod.fst) :=
  recordKeys_foldl_setKey ps []

theorem setKey_fresh (d : Record) (k : String) (v : Value)
    (h : k ∉ recordKeys d) : setKey d k v = d ++ [(k, v)] := by
  induction d with
  | nil => rfl
  | cons kv rest ih =>
    rw [recordKeys_cons] at h
    simp only [List.mem_cons, not_or] at h
    obtain ⟨hne, hrest⟩ := h
    have hne2 : ¬ kv.1 = k := fun he => hne he.symm
    rw [show setKey (kv :: rest) k v = kv :: setKey rest k v by
      simp [setKey, hne2]]
    rw [ih hrest]
    rfl

theorem foldl_setKey_fresh (ps : List (String × Value)) (d : Record)
    (hnd : (ps.map Prod.fst).Nodup)
    (hdis : ∀ k ∈ ps.map Prod.fst, k ∉ recordKeys d) :
    ps.foldl (fun d2 kv => setKey d2 kv.1 kv.2) d = d ++ ps := by
  induction ps generalizing d with
  | nil => simp
  | cons kv ps ih =>
    simp only [List.foldl_cons]
    have hk : kv.1 ∉ recordKeys d := hdis kv.1 (by simp)
    rw [setKey_fresh d kv.1 kv.2 hk]
    simp only [List.map_cons, List.nodup_cons] at hnd
    rw [ih (d ++ [(kv.1, kv.2)]) hnd.2 ?fresh]
    · simp
    case fresh =>
      intro k hkmem
      rw [recordKeys_append]
      simp only [List.mem_append, not_or]
      refine ⟨hdis k (by simp [hkmem]), ?_⟩
      simp only [recordKeys, List.map_cons, List.map_nil, List.mem_singleton]
      intro he
      exact hnd.1 (he ▸ hkmem)

theorem dictOfPairs_nodup_id (ps : List (String × Value))
    (hnd : (ps.map Prod.fst).Nodup) : dictOfPairs ps = ps := by
  have h := foldl_setKey_fresh ps [] hnd (by intro k hk; simp [recordKeys])
  simpa [dictOfPairs] using h

theorem map_rowValue_self (r : Record) (hnd : (recordKeys r).Nodup) :
    (recordKeys r).map (fun c => (c, rowValue r c)) = r := by
  induction r with
  | nil => rfl
  | cons kv rest ih =>
    rw [recordKeys_cons] at hnd ⊢
    obtain ⟨hhead, hrest⟩ := List.nodup_cons.mp hnd
    simp only [List.map_cons]
    have htail : (recordKeys rest).map (fun c => (c, rowValue (kv :: rest) c))
        = (recordKeys rest).map (fun c => (c, rowValue rest c)) := by
      apply List.map_congr_left
      intro c hc
      have hne : ¬ c = kv.1 := fun he => hhead (he ▸ hc)
      unfold rowValue
      rw [show lookupKey c (kv :: rest) = lookupKey c rest by
        simp [lookupKey, hne]]
    rw [htail, ih hrest]
    have hhd : rowValue (kv :: rest) kv.1 = kv.2 := by
      unfold rowValue
      simp [lookupKey]
    rw [hhd]

/-! Helper lemmas about column accumulation. -/

theorem foldl_insertCol_mem (ks : List String) (cs : List String)
    (hall : ∀ k ∈ ks, k ∈ cs) : ks.foldl insertCol cs = cs := by
  induction ks generalizing cs with
  | nil => rfl
  | cons k ks ih =>
    have hk : k ∈ cs := hall k (List.mem_cons_self _ _)
    simp only [List.foldl_cons]
    rw [show insertCol cs k = cs by simp [insertCol, hk]]
    exact ih cs (fun k2 hk2 => hall k2 (List.mem_cons_of_mem _ hk2))

theorem foldl_insertCol_fresh (ks cs : List String) (hnd : ks.Nodup)
    (hdis : ∀ k ∈ ks, k ∉ cs) : ks.foldl insertCol cs = cs ++ ks := by
  induction ks generalizing cs with
  | nil => simp
  | cons k ks ih =>
    simp only [List.foldl_cons]
    have hk : k ∉ cs := hdis k (List.mem_cons_self _ _)
    rw [show insertCol cs k = cs ++ [k] by simp [insertCol, hk]]
    simp only [List.nodup_cons] at hnd
    rw [ih (cs ++ [k]) hnd.2 ?fresh]
    · simp
    case fresh =>
      intro k2 hk2
      simp only [List.mem_append, List.mem_singleton, not_or]
      refine ⟨hdis k2 (List.mem_cons_of_mem _ hk2), ?_⟩
      intro he
      exact hnd.1 (he ▸ hk2)

theorem insertCol_nodup (cs : List String) (c : String) (h : cs.Nodup) :
    (insertCol cs c).Nodup := by
  unfold insertCol
  by_cases hc : c ∈ cs
  · simpa [hc]
  · rw [if_neg hc]
    exact List.Nodup.append h (List.nodup_singleton c)
      (by simpa [List.disjoint_singleton] using hc)

theorem foldl_insertCol_nodup (ks cs : List String) (h : cs.Nodup) :
    (ks.foldl insertCol cs).Nodup := by
  induction ks generalizing cs with
  | nil => exact h
  | cons k ks ih => exact ih _ (insertCol_nodup cs k h)

theorem mem_foldl_insertCol (ks cs : List String) (x : String)
    (hx : x ∈ ks.foldl insertCol cs) : x ∈ cs ∨ x ∈ ks := by
  induction ks generalizing cs with
  | nil => exact Or.inl hx
  | cons k ks ih =>
    rcases ih (insertCol cs k) hx with h | h
    · unfold insertCol at h
      by_cases hk : k ∈ cs
      · rw [if_pos hk] at h
        exact Or.inl h
      · rw [if_neg hk] at h
        rcases List.mem_append.mp h with h | h
        · exact Or.inl h
        · simp only [List.mem_singleton] at h
          subst h
          exact Or.inr (List.mem_cons_self _ _)
    · exact Or.inr (List.mem_cons_of_mem _ h)

/-! The rename table is one-shot: renamed labels are never source labels
again, so the DataFrame rename normalization is idempotent. -/

theorem renameColumn_idem (c : String) :
    renameColumn (renameColumn c) = renameColumn c := by
  by_cases h1 : c = "FirstFlrSF"
  · subst h1; decide
  by_cases h2 : c = "SecondFlrSF"
  · subst h2; decide
  by_cases h3 : c = "ThreeSsnPortch"
  · subst h3; decide
  have hfix : renameColumn c = c := by
    unfold renameColumn
    rw [show lookupKey c SECONDARY_VARIABLES_TO_RENAME = none by
      simp [lookupKey, SECONDARY_VARIABLES_TO_RENAME, h1, h2, h3]]
  rw [hfix, hfix]

theorem recordCols_of_keys (cs : List String) (r : Record) :
    recordCols cs r = (recordKeys r).foldl insertCol cs := rfl

theorem dfColumns_uniform (b : Batch) (K : List String) (hnd : K.Nodup)
    (hall : ∀ r ∈ b, recordKeys r = K) (hne : b ≠ []) : dfColumns b = K := by
  have hstay : ∀ (l : List Record), (∀ r ∈ l, recordKeys r = K) →
      l.foldl recordCols K = K := by
    intro l
    induction l with
    | nil => intro _; rfl
    | cons r l ihl =>
      intro hl
      simp only [List.foldl_cons]
      rw [show recordCols K r = K by
        rw [recordCols_of_keys, hl r (List.mem_cons_self _ _)]
        exact foldl_insertCol_mem K K (fun k hk => hk)]
      exact ihl (fun r2 h2 => hl r2 (List.mem_cons_of_mem _ h2))
  cases b with
  | nil => exact absurd rfl hne
  | cons r0 rest =>
    unfold dfColumns
    simp only [List.foldl_cons]
    rw [show recordCols [] r0 = K by
      rw [recordCols_of_keys, hall r0 (List.mem_cons_self _ _)]
      simpa using foldl_insertCol_fresh K [] hnd (by simp)]
    exact hstay rest (fun r h => hall r (List.mem_cons_of_mem _ h))

/-- A batch whose records all carry exactly the column index as keys,
without duplicates and with every label fixed by the rename table, is
left unchanged by the DataFrame rename normalization. -/
theorem toRenamedRecords_fixed (b : Batch)
    (hkeys : ∀ r ∈ b, recordKeys r = dfColumns b)
    (hnodup : (dfColumns b).Nodup)
    (hren : ∀ c ∈ dfColumns b, renameColumn c = c) :
    toRenamedRecords b = b := by
  have hrec : ∀ r ∈ b,
      dictOfPairs ((dfColumns b).map (fun c => (renameColumn c, rowValue r c)))
        = r := by
    intro r hr
    have hk_nd : (recordKeys r).Nodup := by
      rw [hkeys r hr]; exact hnodup
    have h1 : (dfColumns b).map (fun c => (renameColumn c, rowValue r c))
        = (dfColumns b).map (fun c => (c, rowValue r c)) := by
      apply List.map_congr_left
      intro c hc
      rw [hren c hc]
    rw [h1, ← hkeys r hr, map_rowValue_self r hk_nd]
    exact dictOfPairs_nodup_id r hk_nd
  show b.map _ = b
  calc b.map (fun r =>
        dictOfPairs ((dfColumns b).map (fun c => (renameColumn c, rowValue r c))))
      = b.map id := List.map_congr_left hrec
    _ = b := List.map_id b

theorem toRenamedRecords_idem (b : Batch) :
    toRenamedRecords (toRenamedRecords b) = toRenamedRecords b := by
  cases b with
  | nil => rfl
  | cons r0 rest =>
    set b0 : Batch := r0 :: rest with hb0
    set K : List String := firstDedup ((dfColumns b0).map renameColumn) with hK
    have hkeys : ∀ r2 ∈ toRenamedRecords b0, recordKeys r2 = K := by
      intro r2 hr2
      simp only [toRenamedRecords, List.mem_map] at hr2
      obtain ⟨r, hr, hre⟩ := hr2
      rw [← hre, recordKeys_dictOfPairs, hK]
      congr 1
      rw [List.map_map]
      rfl
    have hKnd : K.Nodup := by
      rw [hK]
      exact foldl_insertCol_nodup _ [] List.nodup_nil
    have hren : ∀ c ∈ K, renameColumn c = c := by
      intro c hc
      rw [hK] at hc
      rcases mem_foldl_insertCol _ [] c hc with h | h
      · simp at h
      · simp only [List.mem_map] at h
        obtain ⟨c0, hc0, hcc⟩ := h
        rw [← hcc]
        exact renameColumn_idem c0
    have hne2 : toRenamedRecords b0 ≠ [] := by
      simp [toRenamedRecords, hb0]
    have hdf2 : dfColumns (toRenamedRecords b0) = K :=
      dfColumns_uniform _ K hKnd hkeys hne2
    exact toRenamedRecords_fixed (toRenamedRecords b0)
      (by intro r hr; rw [hdf2]; exact hkeys r hr)
      (by rw [hdf2]; exact hKnd)
      (by rw [hdf2]; exact hren)

theorem make_save_predictions_rename_invariant (self : PredictionPersistence)
    (env : Env) (cf : Bool) (db : List DbRecord) (b : Batch) :
    self.make_save_predictions env ModelType.LASSO (toRenamedRecords b) cf db
      = self.make_save_predictions env ModelType.LASSO b cf db := by
  unfold PredictionPersistence.make_save_predictions
  rw [show normalizedInput ModelType.LASSO (toRenamedRecords b)
        = normalizedInput ModelType.LASSO b by
    simp [normalizedInput, toRenamedRecords_idem]]

theorem predict_rename_invariant (env : Env) (b : Batch) :
    predict env (toRenamedRecords b) = predict env b := by
  unfold predict
  rw [make_save_predictions_rename_invariant]

/-! Structural description of a terminating make_save_predictions call. -/

theorem make_save_predictions_ok (self : PredictionPersistence) (env : Env)
    (db_model : ModelType) (input_data : Batch) (commitFails : Bool)
    (db : List DbRecord) (pr : PredictionResult) (db2 : List DbRecord)
    (h : self.make_save_predictions env db_model input_data commitFails db
          = Except.ok (pr, db2)) :
    pr.errors
        = (MODEL_PREDICTION_MAP env db_model (normalizedInput db_model input_data)).errors ∧
    pr.model_version
        = (MODEL_PREDICTION_MAP env db_model (normalizedInput db_model input_data)).version ∧
    ((errorsTruthy pr.errors = true ∧ pr.predictions = none ∧ db2 = db) ∨
     (errorsTruthy pr.errors = false ∧ commitFails = false ∧
      ∃ uid raw, self.user_id = some uid ∧
        (MODEL_PREDICTION_MAP env db_model (normalizedInput db_model input_data)).predictions
          = some raw ∧
        pr.predictions = some raw ∧
        db2 = db ++ [{ table := if db_model = ModelType.LASSO
                                then PredTable.LassoModelPredictions
                                else PredTable.GradientBoostingModelPredictions,
                       user_id := uid,
                       model_version := pr.model_version,
                       inputs := normalizedInput db_model input_data,
                       outputs := some raw }])) := by
  unfold PredictionPersistence.make_save_predictions at h
  set out := MODEL_PREDICTION_MAP env db_model (normalizedInput db_model input_data)
    with hout
  by_cases he : errorsTruthy out.errors = true
  · rw [if_pos he] at h
    simp only [Except.ok.injEq, Prod.mk.injEq] at h
    obtain ⟨hpr, hdb⟩ := h
    subst hdb
    rw [← hpr]
    exact ⟨rfl, rfl, Or.inl ⟨he, rfl, rfl⟩⟩
  · rw [if_neg he] at h
    rw [Bool.not_eq_true] at he
    cases hp : out.predictions with
    | none =>
      rw [hp] at h
      simp only [] at h
      exact absurd h (by simp)
    | some raw =>
      rw [hp] at h
      simp only [] at h
      unfold PredictionPersistence.save_predictions at h
      cases hu : self.user_id with
      | none =>
        rw [hu] at h
        simp only [] at h
        exact absurd h (by simp)
      | some uid =>
        rw [hu] at h
        simp only [] at h
        by_cases hcf : commitFails = true
        · rw [if_pos hcf] at h
          simp only [] at h
          exact absurd h (by simp)
        · rw [if_neg hcf] at h
          rw [Bool.not_eq_true] at hcf
          simp only [Except.ok.injEq, Prod.mk.injEq] at h
          obtain ⟨hpr, hdb⟩ := h
          rw [← hpr]
          refine ⟨rfl, rfl, Or.inr ⟨he, hcf, uid, raw, rfl, rfl, rfl, ?_⟩⟩
          rw [← hdb]

/-! Structural description of a terminating predict call. -/

theorem predict_ok (env : Env) (b : Batch) (o : PredictOutcome)
    (h : predict env b = Except.ok o) :
    o.shadowDispatched = env.shadow_mode_active ∧
    (o.db = [] ∨ ∃ rec, o.db = [rec] ∧
        rec.table = PredTable.LassoModelPredictions ∧
        rec.inputs = toRenamedRecords b) ∧
    (o.status = 400 ∨ o.status = 200) ∧
    (o.status = 400 → o.histObs = [] ∧ o.gaugeSets = [] ∧ o.db = []) := by
  unfold predict at h
  cases hm : (PredictionPersistence.init none).make_save_predictions env
      ModelType.LASSO b env.primaryCommitFails [] with
  | error e =>
    rw [hm] at h
    simp only [] at h
    exact absurd h (by simp)
  | ok res =>
    obtain ⟨pr, db⟩ := res
    rw [hm] at h
    simp only [] at h
    have hstruct := make_save_predictions_ok _ _ _ _ _ _ _ _ hm
    have hdb : db = [] ∨ ∃ rec, db = [rec] ∧
        rec.table = PredTable.LassoModelPredictions ∧
        rec.inputs = toRenamedRecords b := by
      rcases hstruct.2.2 with ⟨_, _, hd⟩ | ⟨_, _, uid, raw, _, _, _, hd⟩
      · exact Or.inl hd
      · refine Or.inr ⟨_, by simpa using hd, by simp, ?_⟩
        simp [normalizedInput]
    by_cases he : errorsTruthy pr.errors = true
    · rw [if_pos he] at h
      simp only [Except.ok.injEq] at h
      rw [← h]
      refine ⟨rfl, hdb, Or.inl rfl, fun _ => ⟨rfl, rfl, ?_⟩⟩
      rcases hstruct.2.2 with ⟨_, _, hd⟩ | ⟨hf, _⟩
      · exact hd
      · rw [he] at hf; exact absurd hf (by simp)
    · rw [if_neg he] at h
      cases hp : pr.predictions with
      | none =>
        rw [hp] at h
        simp only [] at h
        exact absurd h (by simp)
      | some ps =>
        rw [hp] at h
        simp only [Except.ok.injEq] at h
        rw [← h]
        exact ⟨rfl, hdb, Or.inr rfl, fun hc => by simp at hc⟩

/-! Claim theorems. -/

/-- Claim C1, counterexample: the live model succeeds but the save of the
primary outcome fails; the endpoint then produces no 200 response at all;
the uncaught commit exception propagates out of predict, so the claim
that the response still returns 200 with the computed predictions is
false on this input. -/
theorem primary_persistence_failure_breaks_response :
    (predict envFail [[("LotArea", Value.vInt 5000)]]).toOption = none ∧
    predict envFail [[("LotArea", Value.vInt 5000)]]
      = Except.error PyError.persistenceError :=
  ⟨rfl, rfl⟩

/-- Claim C1, amended: when the live prediction succeeds and the save of
the primary outcome fails, the persistence exception is not caught or
logged on the primary path; it propagates out of the handler, so the
caller receives a server error rather than a 200 with the computed
predictions. -/
theorem primary_persistence_failure_propagates (env : Env) (b : Batch)
    (raw : List Int) (hcf : env.primaryCommitFails = true)
    (hE : errorsTruthy (env.liveModel (toRenamedRecords b)).errors = false)
    (hp : (env.liveModel (toRenamedRecords b)).predictions = some raw) :
    predict env b = Except.error PyError.persistenceError := by
  simp [predict, PredictionPersistence.make_save_predictions,
    PredictionPersistence.save_predictions, MODEL_PREDICTION_MAP,
    normalizedInput, PredictionPersistence.init, pyStrTruthy, hE, hp, hcf]

theorem primary_persistence_failure_propagates_witness :
    envFail.primaryCommitFails = true ∧
    predict envFail [] = Except.error PyError.persistenceError :=
  ⟨rfl, primary_persistence_failure_propagates envFail [] [7] rfl
    (by decide) (by decide)⟩

/-- Claim C2, counterexample: a request whose live prediction returns
non-empty errors still dispatches the shadow path when the toggle is
active, because the dispatch sits before the error check; the dispatched
thread then persists a secondary record, so the claim that the shadow
path is never dispatched is false on this input. -/
theorem live_errors_still_dispatch_shadow :
    (predict envLiveErr bErr).toOption.map
        (fun o => (o.status, o.shadowDispatched)) = some (400, true) ∧
    (predict envLiveErr bErr).toOption.map
        (fun o => (eventualDb envLiveErr bErr o).map DbRecord.table)
      = some [PredTable.GradientBoostingModelPredictions] :=
  ⟨rfl, rfl⟩

/-- Claim C2, amended: when the live prediction outcome has truthy
errors, the errors are returned to the caller immediately with status
400, no primary persistence happens and no model metric is emitted for
the request; the shadow path, however, is dispatched exactly when the
shadow toggle is active, regardless of the live errors, because the
dispatch precedes the error check. -/
theorem live_errors_return_400_shadow_unconditional (env : Env) (b : Batch)
    (hE : errorsTruthy (env.liveModel (toRenamedRecords b)).errors = true) :
    predict env b = Except.ok
      { status := 400, predictions := none, version := none,
        errors := (env.liveModel (toRenamedRecords b)).errors,
        db := [], shadowDispatched := env.shadow_mode_active,
        histObs := [], gaugeSets := [] } := by
  simp [predict, PredictionPersistence.make_save_predictions,
    MODEL_PREDICTION_MAP, normalizedInput, hE]

theorem live_errors_return_400_shadow_unconditional_witness :
    predict envLiveErr bErr = Except.ok
      { status := 400, predictions := none, version := none,
        errors := (envLiveErr.liveModel (toRenamedRecords bErr)).errors,
        db := [], shadowDispatched := envLiveErr.shadow_mode_active,
        histObs := [], gaugeSets := [] } :=
  live_errors_return_400_shadow_unconditional envLiveErr bErr (by decide)

/-- Claim C3 (code bug): for every batch the secondary model validates
successfully, the gradient endpoint neither returns 200 nor persists a
record: the handler invokes save_predictions with keyword arguments
model_version and predictions, which the method signature does not
accept, so Python raises TypeError before any row is added. -/
theorem gradient_endpoint_save_raises_type_error (env : Env) (b : Batch)
    (hE : errorsTruthy (env.shadowModel b).errors = false) :
    predict_previous env b = Except.error PyError.typeError := by
  simp [predict_previous, hE]

theorem gradient_endpoint_save_raises_type_error_witness :
    predict_previous envOk [[("LotArea", Value.vInt 5000)]]
      = Except.error PyError.typeError :=
  gradient_endpoint_save_raises_type_error envOk
    [[("LotArea", Value.vInt 5000)]] (by decide)

/-- Claim C4, counterexample: a successful LASSO batch is persisted with
the renamed view of its inputs, not the batch as originally submitted, so
the claim that the record stores the pre-normalization inputs is false on
this input. -/
theorem persisted_inputs_renamed_not_original :
    (predict envOk bRen).toOption.map (fun o => o.db.map DbRecord.inputs)
      = some [[[("1stFlrSF", Value.vInt 10)]]] ∧
    [[("1stFlrSF", Value.vInt 10)]] ≠ bRen :=
  ⟨rfl, by decide⟩

/-- Claim C4, amended: every successful save commits exactly one record
holding the model version together with the inputs exactly as passed to
the model: the batch as submitted for the secondary model, but the
renamed DataFrame view for the primary (LASSO) model. -/
theorem persisted_record_is_model_view (self : PredictionPersistence)
    (env : Env) (db_model : ModelType) (input_data : Batch)
    (commitFails : Bool) (db : List DbRecord) (pr : PredictionResult)
    (db2 : List DbRecord)
    (h : self.make_save_predictions env db_model input_data commitFails db
          = Except.ok (pr, db2))
    (hsucc : errorsTruthy pr.errors = false) :
    ∃ rec, db2 = db ++ [rec] ∧
      rec.inputs = normalizedInput db_model input_data ∧
      (db_model = ModelType.LASSO →
        rec.inputs = toRenamedRecords input_data) ∧
      (db_model = ModelType.GRADIENT_BOOSTING → rec.inputs = input_data) ∧
      rec.model_version = pr.model_version ∧
      rec.outputs = pr.predictions := by
  have hs := make_save_predictions_ok _ _ _ _ _ _ _ _ h
  rcases hs.2.2 with ⟨ht, _, _⟩ | ⟨_, _, uid, raw, _, _, hpr, hdb⟩
  · rw [hsucc] at ht
    exact absurd ht (by simp)
  · refine ⟨_, hdb, rfl, ?_, ?_, rfl, ?_⟩
    · intro hL
      subst hL
      simp [normalizedInput]
    · intro hG
      subst hG
      simp [normalizedInput]
    · rw [hpr]

theorem persisted_record_is_model_view_witness :
    ∃ rec, [recRen] = ([] : List DbRecord) ++ [rec] ∧
      rec.inputs = normalizedInput ModelType.LASSO bRen ∧
      (ModelType.LASSO = ModelType.LASSO →
        rec.inputs = toRenamedRecords bRen) ∧
      (ModelType.LASSO = ModelType.GRADIENT_BOOSTING → rec.inputs = bRen) ∧
      rec.model_version = prOk.model_version ∧
      rec.outputs = prOk.predictions :=
  persisted_record_is_model_view (PredictionPersistence.init none) envOk
    ModelType.LASSO bRen false [] prOk [recRen] rfl (by decide)

/-- Claim C5: for every outcome make_save_predictions returns, with the
external packages honouring the adapter contract that validation failures
come back with a populated (never empty) error mapping, the errors and
predictions fields are mutually exclusive: errors is non-null exactly
when predictions is null. -/
theorem outcome_errors_predictions_mutually_exclusive
    (self : PredictionPersistence) (env : Env) (db_model : ModelType)
    (input_data : Batch) (commitFails : Bool) (db : List DbRecord)
    (pr : PredictionResult) (db2 : List DbRecord)
    (hc : adapterErrorsPopulated (MODEL_PREDICTION_MAP env db_model))
    (h : self.make_save_predictions env db_model input_data commitFails db
          = Except.ok (pr, db2)) :
    pr.errors ≠ none ↔ pr.predictions = none := by
  have hs := make_save_predictions_ok _ _ _ _ _ _ _ _ h
  obtain ⟨herr, _, hcase⟩ := hs
  rcases hcase with ⟨ht, hpnone, _⟩ | ⟨hf, _, uid, raw, _, _, hpr, _⟩
  · constructor
    · intro _
      exact hpnone
    · intro _ hn
      rw [hn] at ht
      exact absurd ht (by simp [errorsTruthy])
  · have hnone : pr.errors = none := by
      rcases hopt : pr.errors with _ | e
      · rfl
      · rcases e with _ | ⟨x, xs⟩
        · exfalso
          apply hc (normalizedInput db_model input_data)
          rw [← herr, hopt]
        · rw [hopt] at hf
          exact absurd hf (by simp [errorsTruthy])
    constructor
    · intro hne
      exact absurd hnone hne
    · intro hpn
      rw [hpr] at hpn
      exact absurd hpn (by simp)

theorem outcome_errors_predictions_mutually_exclusive_witness :
    (prOk.errors ≠ none ↔ prOk.predictions = none) :=
  outcome_errors_predictions_mutually_exclusive
    (PredictionPersistence.init none) envOk ModelType.LASSO bRen false []
    prOk [recRen] (fun _ h2 => Option.noConfusion h2) rfl

/-- Claim C6: with the shadow toggle off, a request to the primary
endpoint behaves identically whatever the secondary model is, the shadow
thread is not dispatched, the eventually committed rows are exactly the
synchronous ones, and none of them belongs to the secondary table. -/
theorem shadow_toggle_off_no_secondary_effects (env : Env) (g : ModelFn)
    (b : Batch) (o : PredictOutcome)
    (hoff : env.shadow_mode_active = false)
    (h : predict env b = Except.ok o) :
    predict { env with shadowModel := g } b = predict env b ∧
    o.shadowDispatched = false ∧
    eventualDb env b o = o.db ∧
    (eventualDb env b o).filter
      (fun r => r.table == PredTable.GradientBoostingModelPredictions)
      = [] := by
  have hs := predict_ok env b o h
  have hdisp : o.shadowDispatched = false := by rw [hs.1, hoff]
  have hev : eventualDb env b o = o.db := by
    unfold eventualDb
    rw [hdisp]
    simp
  refine ⟨rfl, hdisp, hev, ?_⟩
  rw [hev]
  rcases hs.2.1 with hnil | ⟨rec, hrec, htab, _⟩
  · rw [hnil]
    rfl
  · rw [hrec]
    simp [htab]

theorem shadow_toggle_off_no_secondary_effects_witness :
    predict { envOff with shadowModel := liveOkFn } [] = predict envOff [] ∧
    oOff.shadowDispatched = false ∧
    eventualDb envOff [] oOff = oOff.db ∧
    (eventualDb envOff [] oOff).filter
      (fun r => r.table == PredTable.GradientBoostingModelPredictions)
      = [] :=
  shadow_toggle_off_no_secondary_effects envOff liveOkFn [] oOff rfl rfl

/-- Claim C7: on a successful primary request, the handler emits exactly
one histogram observation and one gauge set per prediction value, each
labelled with the application name, the LASSO identity and the live
version, and these emissions are part of the outcome completed before the
response is returned. -/
theorem primary_metrics_one_per_prediction (env : Env) (b : Batch)
    (o : PredictOutcome) (h : predict env b = Except.ok o)
    (h200 : o.status = 200) :
    ∃ ps, o.predictions = some ps ∧
      o.histObs = ps.map (fun p =>
        { app_name := APP_NAME, model_name := ModelType.LASSO.pyName,
          model_version := env.live_version, value := p }) ∧
      o.gaugeSets = ps.map (fun p =>
        { app_name := APP_NAME, model_name := ModelType.LASSO.pyName,
          model_version := env.live_version, value := p }) ∧
      o.histObs.length = ps.length ∧
      o.gaugeSets.length = ps.length := by
  unfold predict at h
  cases hm : (PredictionPersistence.init none).make_save_predictions env
      ModelType.LASSO b env.primaryCommitFails [] with
  | error e =>
    rw [hm] at h
    simp only [] at h
    exact absurd h (by simp)
  | ok res =>
    obtain ⟨pr, db⟩ := res
    rw [hm] at h
    simp only [] at h
    by_cases he : errorsTruthy pr.errors = true
    · rw [if_pos he] at h
      simp only [Except.ok.injEq] at h
      rw [← h] at h200
      simp at h200
    · rw [if_neg he] at h
      cases hp : pr.predictions with
      | none =>
        rw [hp] at h
        simp only [] at h
        exact absurd h (by simp)
      | some ps =>
        rw [hp] at h
        simp only [Except.ok.injEq] at h
        refine ⟨ps, ?_, ?_, ?_, ?_, ?_⟩ <;> rw [← h] <;> simp

theorem primary_metrics_one_per_prediction_witness :
    ∃ ps, oOn.predictions = some ps ∧
      oOn.histObs = ps.map (fun p =>
        { app_name := APP_NAME, model_name := ModelType.LASSO.pyName,
          model_version := envOk.live_version, value := p }) ∧
      oOn.gaugeSets = ps.map (fun p =>
        { app_name := APP_NAME, model_name := ModelType.LASSO.pyName,
          model_version := envOk.live_version, value := p }) ∧
      oOn.histObs.length = ps.length ∧
      oOn.gaugeSets.length = ps.length :=
  primary_metrics_one_per_prediction envOk [] oOn rfl rfl

/-- Claim C8: every successful batch results in exactly one new committed
record, appended to the rows already present, and it is routed to the
table of the batch model identity: the regression predictions table for
LASSO and the gradient boosting predictions table for GRADIENT_BOOSTING. -/
theorem one_record_per_successful_batch (self : PredictionPersistence)
    (env : Env) (db_model : ModelType) (input_data : Batch)
    (commitFails : Bool) (db : List DbRecord) (pr : PredictionResult)
    (db2 : List DbRecord)
    (h : self.make_save_predictions env db_model input_data commitFails db
          = Except.ok (pr, db2))
    (hsucc : errorsTruthy pr.errors = false) :
    ∃ rec, db2 = db ++ [rec] ∧
      (db_model = ModelType.LASSO →
        rec.table = PredTable.LassoModelPredictions) ∧
      (db_model = ModelType.GRADIENT_BOOSTING →
        rec.table = PredTable.GradientBoostingModelPredictions) := by
  have hs := make_save_predictions_ok _ _ _ _ _ _ _ _ h
  rcases hs.2.2 with ⟨ht, _, _⟩ | ⟨_, _, uid, raw, _, _, _, hdb⟩
  · rw [hsucc] at ht
    exact absurd ht (by simp)
  · refine ⟨_, hdb, ?_, ?_⟩
    · intro hL
      subst hL
      simp
    · intro hG
      subst hG
      simp

theorem one_record_per_successful_batch_witness :
    ∃ rec, [recShadow] = ([] : List DbRecord) ++ [rec] ∧
      (ModelType.GRADIENT_BOOSTING = ModelType.LASSO →
        rec.table = PredTable.LassoModelPredictions) ∧
      (ModelType.GRADIENT_BOOSTING = ModelType.GRADIENT_BOOSTING →
        rec.table = PredTable.GradientBoostingModelPredictions) :=
  one_record_per_successful_batch (PredictionPersistence.init none) envOk
    ModelType.GRADIENT_BOOSTING [] false [] prShadow [recShadow] rfl
    (by decide)

/-- Claim C9: the primary field translation is applied exactly once and
is idempotent: renaming an already renamed batch changes nothing, the
full endpoint gives the same result on a batch and on its renamed view,
and a uniform batch whose field names are all fixed by the rename table
(the target schema) passes through the translation unchanged. -/
theorem rename_applied_once_idempotent (env : Env) (b : Batch) :
    toRenamedRecords (toRenamedRecords b) = toRenamedRecords b ∧
    predict env (toRenamedRecords b) = predict env b ∧
    ((∀ r ∈ b, recordKeys r = dfColumns b) → (dfColumns b).Nodup →
      (∀ c ∈ dfColumns b, renameColumn c = c) →
      toRenamedRecords b = b) :=
  ⟨toRenamedRecords_idem b, predict_rename_invariant env b,
   fun h1 h2 h3 => toRenamedRecords_fixed b h1 h2 h3⟩

theorem rename_applied_once_idempotent_witness :
    toRenamedRecords (toRenamedRecords bTgt) = toRenamedRecords bTgt ∧
    predict envOk (toRenamedRecords bTgt) = predict envOk bTgt ∧
    toRenamedRecords bTgt = bTgt :=
  ⟨(rename_applied_once_idempotent envOk bTgt).1,
   (rename_applied_once_idempotent envOk bTgt).2.1,
   (rename_applied_once_idempotent envOk bTgt).2.2 (by decide) (by decide)
     (by decide)⟩

/-- Claim C10: constructing PredictionPersistence with a truthy (non
empty) user_id argument leaves the user_id attribute unassigned, so a
later save fails with AttributeError instead of persisting the supplied
identity; the placeholder 007 is assigned exactly when the argument is
omitted (None) or empty. -/
theorem nonempty_user_id_attribute_unset (u : String) (hu : u ≠ "")
    (inputs : Batch) (prediction_result : PredictionResult)
    (db_model : ModelType) (commitFails : Bool) (db : List DbRecord) :
    (PredictionPersistence.init (some u)).user_id = none ∧
    (PredictionPersistence.init (some u)).save_predictions inputs
        prediction_result db_model commitFails db
      = Except.error PyError.attributeError ∧
    (PredictionPersistence.init none).user_id = some "007" ∧
    (PredictionPersistence.init (some "")).user_id = some "007" := by
  have hinit : PredictionPersistence.init (some u) = { user_id := none } := by
    unfold PredictionPersistence.init
    rw [if_pos (by simp [pyStrTruthy, hu])]
  refine ⟨by rw [hinit], ?_, by decide, by decide⟩
  rw [hinit]
  rfl

theorem nonempty_user_id_attribute_unset_witness :
    (PredictionPersistence.init (some "alice")).user_id = none ∧
    (PredictionPersistence.init (some "alice")).save_predictions [] prOk
        ModelType.LASSO false []
      = Except.error PyError.attributeError ∧
    (PredictionPersistence.init none).user_id = some "007" ∧
    (PredictionPersistence.init (some "")).user_id = some "007" :=
  nonempty_user_id_attribute_unset "alice" (by decide) [] prOk
    ModelType.LASSO false []

end MLApi
